import Mathlib

/-!
Verification of the CAN telemetry pipeline of `src/main.py`
(rusolar-dashboard-python): the frame codec, the frame dispatcher
(`MainDashboardWindow.handle_can_message`), the host-status encoder
(`get_raspi5_status_snapshot`), and the ingest loop (`CANWorker`).

Modelling conventions:
- Python floats are modelled as exact rationals (`ℚ`); decimal literals of
  the source (`2.24`, `5.1`) are the corresponding exact rationals.
- A raised Python exception (struct.error, IndexError, TypeError, OSError)
  is modelled as the `.error` case of `Except PyError`; a function that
  returns normally is `.ok`.
- Payload bytes are natural numbers (a real CAN payload holds values
  0..255).
- The gathering of the five host metrics (subprocess/psutil calls) is I/O
  and enters the model as a `Snapshot` input; the pure packing that follows
  it in `get_raspi5_status_snapshot` is modelled exactly.
- The I/O actions of `CANWorker` (bus.recv, bus.send, the log file) enter
  the model as an `Env`: whether a log write succeeds, whether bus.send
  succeeds, and the gathered metrics. Each received frame of a run is one
  element of an input list.
-/

namespace Rusolar

/-- MAX_SPEED = 16 m/s (src/main.py line 31). -/
def MAX_SPEED : ℚ := 16

/-- MAX_SOC = 4471 Wh (src/main.py line 32). -/
def MAX_SOC : ℚ := 4471

/-- ALLOWED_CAN_IDS (src/main.py line 37). -/
def ALLOWED_CAN_IDS : List ℕ := [0x10D, 0x10C, 0x100]

/-- CAN_BITRATE (src/main.py line 38). -/
def CAN_BITRATE : ℕ := 500000

/-- SOC_DATA_INDEX = 6 (src/main.py line 39). -/
def SOC_DATA_INDEX : ℕ := 6

/-- RASPI5_STATUS_CAN_ID = 0x10E (src/main.py line 40). -/
def RASPI5_STATUS_CAN_ID : ℕ := 0x10E

/-- ms2mph (src/main.py lines 54-55): multiply by the source's constant 2.24. -/
def ms2mph (speed : ℚ) : ℚ := speed * 2.24

/-- clamp (src/main.py lines 58-59): `max(min_value, min(value, max_value))`. -/
def clamp (value min_value max_value : ℚ) : ℚ := max min_value (min value max_value)

/-- Little-endian IEEE-754 binary32 decoding of four payload bytes, the
meaning of Python's `struct.unpack` with format `<f` (src/main.py lines
487, 490, 502). Finite values are decoded exactly into `ℚ`; the byte
patterns with exponent field 255 (infinities and NaNs, which `ℚ` cannot
represent) are mapped by extending the normal-form formula. -/
def decode_f32_le (b0 b1 b2 b3 : ℕ) : ℚ :=
  let w : ℕ := b0 + 256 * b1 + 65536 * b2 + 16777216 * b3
  let sign : ℕ := w / 2 ^ 31
  let expo : ℕ := w / 2 ^ 23 % 256
  let frac : ℕ := w % 2 ^ 23
  let mag : ℚ :=
    if expo = 0 then (frac : ℚ) / 2 ^ 149
    else if expo ≤ 150 then ((2 ^ 23 + frac : ℕ) : ℚ) / 2 ^ (150 - expo)
    else ((2 ^ 23 + frac : ℕ) : ℚ) * 2 ^ (expo - 150)
  if sign = 1 then -mag else mag

/-- Exceptions a pipeline step can raise: `struct.error` from a short
`struct.unpack` buffer, `IndexError` from indexing past the payload,
`TypeError` from `int(None)`, `OSError` from a failed file open/write. -/
inductive PyError
  | typeError
  | structError
  | indexError
  | osError
deriving DecidableEq

/-- One CAN message as the dispatcher sees it: `arbitration_id` and `data`
(python-can `Message`). -/
structure CANMsg where
  arbitration_id : ℕ
  data : List ℕ
deriving DecidableEq

/-- The decoded telemetry values the dispatcher hands to the UI sink: the
spec's `TelemetryUpdate` variants that `handle_can_message` actually
produces. -/
inductive TelemetryUpdate
  | cabinTemp (value : ℚ)
  | trunkTemp (value : ℚ)
  | speed (percent : ℚ) (mph : ℚ)
  | packSoc (percent : ℕ) (watt_hours : ℚ)
deriving DecidableEq

/-- MainDashboardWindow.handle_can_message (src/main.py lines 477-528).

- id 0x10C: `struct.unpack` of bytes 0..3 then of bytes 4..7; a slice
  shorter than 4 bytes makes `struct.unpack` raise `struct.error`, and both
  unpacks happen before any widget update, so a short frame yields an error
  and no update.
- id 0x10D: unpack bytes 0..3, `percentage = value * 100 / MAX_SPEED`,
  `percentage = clamp(percentage, 0, 100)`, `value = ms2mph(value)`.
- id 0x100: `soc = data[SOC_DATA_INDEX]` (IndexError when the payload has
  at most 6 bytes), `percentage = soc` with no clamping,
  `val = (percentage / 100) * MAX_SOC`.
- any other id: no branch taken, nothing emitted. -/
def handle_can_message (msg : CANMsg) : Except PyError (List TelemetryUpdate) :=
  let data := msg.data
  if msg.arbitration_id = 0x10C then
    if data.length < 4 then .error .structError
    else if data.length < 8 then .error .structError
    else
      let value1 := decode_f32_le (data.getD 0 0) (data.getD 1 0) (data.getD 2 0) (data.getD 3 0)
      let value2 := decode_f32_le (data.getD 4 0) (data.getD 5 0) (data.getD 6 0) (data.getD 7 0)
      .ok [.cabinTemp value1, .trunkTemp value2]
  else if msg.arbitration_id = 0x10D then
    if data.length < 4 then .error .structError
    else
      let value := decode_f32_le (data.getD 0 0) (data.getD 1 0) (data.getD 2 0) (data.getD 3 0)
      let percentage := clamp (value * 100 / MAX_SPEED) 0 100
      .ok [.speed percentage (ms2mph value)]
  else if msg.arbitration_id = 0x100 then
    match data[SOC_DATA_INDEX]? with
    | none => .error .indexError
    | some soc => .ok [.packSoc soc (((soc : ℚ) / 100) * MAX_SOC)]
  else .ok []

/-- The five host metrics after the gather phase of
`get_raspi5_status_snapshot`: each is `none` when its sampling failed
(src/main.py lines 69-106 all return `None` on failure). -/
structure Snapshot where
  temp_c : Option ℚ
  voltage : Option ℚ
  ram_pct : Option ℚ
  cpu_pct : Option ℚ
  log_size_bytes : Option ℕ
deriving DecidableEq

/-- Python's `int()` on a float: truncation toward zero. -/
def pyInt (q : ℚ) : ℤ := if q < 0 then ⌈q⌉ else ⌊q⌋

/-- Python's `& 0xFF` on an int: the nonnegative residue mod 256. -/
def band255 (z : ℤ) : ℕ := (z % 256).toNat

/-- Packing phase of get_raspi5_status_snapshot (src/main.py lines
126-150), applied to the gathered metrics.

Byte 0 is computed from the line
`data[0] = int(temp_output) & 0xFF if data[0] is not None else 0`:
the guard tests `data[0]` (the integer 0, never `None`) instead of
`temp_output`, so the expression `int(temp_output)` is always evaluated
and raises `TypeError` when the temperature is absent. Bytes 1-3 guard
their own metric correctly; bytes 4-5 are the big-endian 16-bit log size
in integer-divided megabytes, bytes 6-7 are zero. -/
def get_raspi5_status_snapshot (s : Snapshot) : Except PyError (List ℕ) :=
  match s.temp_c with
  | none => .error .typeError
  | some t =>
    let d0 := band255 (pyInt t)
    let d1 := match s.voltage with
      | some v => band255 (pyInt (v * 10))
      | none => 0
    let d2 := match s.ram_pct with
      | some r => band255 (pyInt r)
      | none => 0
    let d3 := match s.cpu_pct with
      | some c => band255 (pyInt c)
      | none => 0
    let d45 : ℕ × ℕ := match s.log_size_bytes with
      | some n =>
        let mb := n / (1024 * 1024)
        (mb / 2 ^ 8 % 256, mb % 256)
      | none => (0, 0)
    .ok [d0, d1, d2, d3, d45.1, d45.2, 0, 0]

/-- The ingest loop's I/O environment: whether an append to the telemetry
log succeeds, whether bus.send succeeds (a failure is `can.CanError`, which
`send_can_message` catches), and the gathered host metrics. -/
structure Env where
  logOk : Bool
  sendOk : Bool
  snap : Snapshot

/-- CANWorker.log_can_message (src/main.py lines 227-229): opens the log
file and appends one line. There is no try/except around the `open` or the
`write`, so a failing write raises OSError to the caller. -/
def log_can_message (env : Env) (logs : List CANMsg) (m : CANMsg) : Except PyError (List CANMsg) :=
  if env.logOk then .ok (logs ++ [m]) else .error .osError

/-- CANWorker.read_can_message (src/main.py lines 205-213): bus.recv (the
`received` input), then `if msg is not None: self.log_can_message(msg)`;
a log failure propagates. Returns the updated log and the received value
unchanged. -/
def read_can_message (env : Env) (logs : List CANMsg) (received : Option CANMsg) :
    Except PyError (List CANMsg × Option CANMsg) :=
  match received with
  | some m =>
    match log_can_message env logs m with
    | .ok logs2 => .ok (logs2, some m)
    | .error e => .error e
  | none => .ok (logs, none)

/-- CANWorker.send_can_message (src/main.py lines 215-225): bus.send inside
`try`, catching only `can.CanError`; on success the sent message is also
logged, and a log failure there (OSError, not CanError) propagates out of
the except clause. Returns (updated log, messages actually sent). -/
def send_can_message (env : Env) (logs : List CANMsg) (can_id : ℕ) (d : List ℕ) :
    Except PyError (List CANMsg × List CANMsg) :=
  let m : CANMsg := ⟨can_id, d⟩
  if env.sendOk then
    match log_can_message env logs m with
    | .ok logs2 => .ok (logs2, [m])
    | .error e => .error e
  else .ok (logs, [])

/-- Observable state accumulated by the ingest loop: the telemetry log
contents, the values emitted to the sink (each completed bus.recv result,
None included), the number of status transmissions attempted, and the
status frames actually sent. -/
structure IterState where
  logs : List CANMsg
  emitted : List (Option CANMsg)
  sendAttempts : ℕ
  sent : List CANMsg
deriving DecidableEq

/-- The loop's state before its first iteration. -/
def initState : IterState := ⟨[], [], 0, []⟩

/-- One iteration of the while loop in CANWorker.run (src/main.py lines
186-194): read_can_message, `new_message.emit(msg)`,
get_raspi5_status_snapshot, send_can_message of the status frame. Any
exception raised by a step propagates and aborts the iteration (and, in
the source, the whole thread). -/
def run_iteration (env : Env) (st : IterState) (received : Option CANMsg) :
    Except PyError IterState :=
  match read_can_message env st.logs received with
  | .error e => .error e
  | .ok (logs1, msg) =>
    let emitted1 := st.emitted ++ [msg]
    match get_raspi5_status_snapshot env.snap with
    | .error e => .error e
    | .ok d =>
      match send_can_message env logs1 RASPI5_STATUS_CAN_ID d with
      | .error e => .error e
      | .ok (logs2, sentNew) =>
        .ok ⟨logs2, emitted1, st.sendAttempts + 1, st.sent ++ sentNew⟩

/-- CANWorker.run while `_running` stays true: one `run_iteration` per
completed bus.recv, in arrival order; the first raised exception ends the
run (the source thread dies there). -/
def run_loop (env : Env) : IterState → List (Option CANMsg) → Except PyError IterState
  | st, [] => .ok st
  | st, r :: rs =>
    match run_iteration env st r with
    | .ok st2 => run_loop env st2 rs
    | .error e => .error e

/-- A snapshot in which every metric sampled successfully, used as a
concrete input. -/
def sampleSnap : Snapshot :=
  ⟨some 45, some (51 / 10), some 30, some 12, some (2 * 1024 * 1024)⟩

/-- The wire encoding of `sampleSnap`. -/
def sampleBytes : List ℕ := [45, 51, 30, 12, 0, 2, 0, 0]

/-- An environment whose log writes fail (unwritable log file) while
bus.send works. -/
def envLogFail : Env := ⟨false, true, sampleSnap⟩

/-- An environment in which every I/O operation succeeds. -/
def envGood : Env := ⟨true, true, sampleSnap⟩

/-- A well-formed speed frame: id 0x10D, payload the little-endian
binary32 encoding of 8.0 m/s. -/
def mSpeed : CANMsg := ⟨0x10D, [0, 0, 0, 65]⟩

/-- Projection of a loop outcome to the number of attempted status
transmissions, `none` when the loop died on an exception. -/
def sendAttemptsOf : Except PyError IterState → Option ℕ
  | .ok st => some st.sendAttempts
  | .error _ => none

/-- Control-flow positions of CANWorker.run and stop (src/main.py lines
177-203): `check` reads `_running`; a passing check runs bus.recv
(`doRecv`), the sink emit (`doEmit`), the status sampling (`doSample`) and
the status bus.send (`doSend`), then checks again; a failing check leaves
the while loop and calls `bus.shutdown()` (`doShutdown`) once, after which
the thread only signals completion (`stopped`). `exited` is the thread
dying on an uncaught exception inside the body, before ever reaching
`bus.shutdown()` at line 196 (there is no try/finally around the loop). -/
inductive Phase
  | check
  | doRecv
  | doEmit
  | doSample
  | doSend
  | doShutdown
  | stopped
  | exited
deriving DecidableEq

/-- Loop-control state: the current phase and how many bus.recv calls have
completed (the index into the stream of receive results). -/
structure LoopState where
  phase : Phase
  recvCount : ℕ
deriving DecidableEq

/-- One observable step of CANWorker.run (src/main.py lines 185-200),
error exits included; `stream` gives each completed bus.recv result and
the Boolean is the value of `_running`, read only at `check`.
- doRecv: bus.recv completes with `stream recvCount`; read_can_message
  then logs a received frame, and a failing log write raises OSError;
- doSample: get_raspi5_status_snapshot raises TypeError when the
  temperature metric is absent (the byte-0 guard bug);
- doSend: a bus.send failure (can.CanError) is caught, but the log write
  of a sent frame raises OSError when log writes fail.
The three exit tests are exactly the three disjuncts of `bodyRaises`,
which theorem `run_iteration_ok_iff` proves equivalent to `run_iteration`
raising; an uncaught exception ends the thread (`exited`) without
releasing the bus. -/
def stepLoop (env : Env) (stream : ℕ → Option CANMsg) (s : LoopState) (running : Bool) :
    LoopState :=
  match s.phase with
  | .check => ⟨if running then .doRecv else .doShutdown, s.recvCount⟩
  | .doRecv =>
    if (stream s.recvCount).isSome && !env.logOk then ⟨.exited, s.recvCount + 1⟩
    else ⟨.doEmit, s.recvCount + 1⟩
  | .doEmit => ⟨.doSample, s.recvCount⟩
  | .doSample =>
    if env.snap.temp_c.isNone then ⟨.exited, s.recvCount⟩ else ⟨.doSend, s.recvCount⟩
  | .doSend =>
    if env.sendOk && !env.logOk then ⟨.exited, s.recvCount⟩ else ⟨.check, s.recvCount⟩
  | .doShutdown => ⟨.stopped, s.recvCount⟩
  | .stopped => ⟨.stopped, s.recvCount⟩
  | .exited => ⟨.exited, s.recvCount⟩

/-- The loop's control state at each step when `CANWorker.stop()` runs at
step t0: `_running` is true at steps before t0 and false from t0 on (the
flag is only ever cleared, never set again). -/
def loopTrace (env : Env) (stream : ℕ → Option CANMsg) (t0 : ℕ) : ℕ → LoopState
  | 0 => ⟨.check, 0⟩
  | i + 1 => stepLoop env stream (loopTrace env stream t0 i) (decide (i < t0))

/-- Whether one pass of the loop body over receive result `r` raises: a
received frame whose log write fails, an absent temperature, or a
successful send whose log write fails. -/
def bodyRaises (env : Env) (r : Option CANMsg) : Bool :=
  (r.isSome && !env.logOk) || env.snap.temp_c.isNone || (env.sendOk && !env.logOk)

/-- Abstraction of stepLoop's phase transition for the case that no body
step raises; `stepLoop_phase_noRaise` proves stepLoop agrees with it
whenever log writes succeed and the temperature metric is present. -/
def phaseStepNoRaise : Phase → Bool → Phase
  | .check, true => .doRecv
  | .check, false => .doShutdown
  | .doRecv, _ => .doEmit
  | .doEmit, _ => .doSample
  | .doSample, _ => .doSend
  | .doSend, _ => .check
  | .doShutdown, _ => .stopped
  | .stopped, _ => .stopped
  | .exited, _ => .exited

/-- Phase trace of the no-raise abstraction with stop requested at t0. -/
def noRaiseTrace (t0 : ℕ) : ℕ → Phase
  | 0 => .check
  | i + 1 => phaseStepNoRaise (noRaiseTrace t0 i) (decide (i < t0))

/-- One step of the no-raise abstraction once the stop flag is down. -/
def drain (p : Phase) : Phase := phaseStepNoRaise p false

/-- Phases of the running loop body, before shutdown begins or the thread
dies. -/
def phaseActive : Phase → Bool
  | .doShutdown => false
  | .stopped => false
  | .exited => false
  | _ => true

/-- A receive stream that always yields the 8.0 m/s speed frame. -/
def streamSpeed : ℕ → Option CANMsg := fun _ => some mSpeed

theorem clamp_percent_mem (v : ℚ) : 0 ≤ clamp v 0 100 ∧ clamp v 0 100 ≤ 100 :=
  ⟨le_max_left _ _, max_le (by norm_num) (min_le_right _ _)⟩

theorem speed_frame_eval :
    handle_can_message mSpeed = .ok [.speed 50 (448 / 25)] := by
  norm_num [handle_can_message, mSpeed, decode_f32_le, clamp, ms2mph, MAX_SPEED]

theorem encode_sampleSnap : get_raspi5_status_snapshot sampleSnap = .ok sampleBytes := by
  norm_num [get_raspi5_status_snapshot, sampleSnap, sampleBytes, pyInt, band255]
  decide

theorem run_iteration_ok (env : Env) (st : IterState) (r : Option CANMsg) (d : List ℕ)
    (hlog : env.logOk = true) (hsnap : get_raspi5_status_snapshot env.snap = .ok d) :
    ∃ st2, run_iteration env st r = .ok st2 ∧ st2.sendAttempts = st.sendAttempts + 1 := by
  cases r <;> cases hsend : env.sendOk <;>
    simp [run_iteration, read_can_message, send_can_message, log_can_message,
      hlog, hsend, hsnap]

theorem run_loop_counts (env : Env) (d : List ℕ)
    (hlog : env.logOk = true) (hsnap : get_raspi5_status_snapshot env.snap = .ok d) :
    ∀ (inputs : List (Option CANMsg)) (st : IterState),
      ∃ st2, run_loop env st inputs = .ok st2
        ∧ st2.sendAttempts = st.sendAttempts + inputs.length := by
  intro inputs
  induction inputs with
  | nil => intro st; exact ⟨st, rfl, by simp⟩
  | cons r rs ih =>
    intro st
    obtain ⟨st1, h1, hc1⟩ := run_iteration_ok env st r d hlog hsnap
    obtain ⟨st2, h2, hc2⟩ := ih st1
    refine ⟨st2, ?_, ?_⟩
    · simp [run_loop, h1, h2]
    · simp [hc2, hc1, List.length_cons]
      omega

theorem run_iteration_ok_iff (env : Env) (st : IterState) (r : Option CANMsg) :
    (∃ st2, run_iteration env st r = .ok st2) ↔ bodyRaises env r = false := by
  cases r <;> cases hlog : env.logOk <;> cases hsend : env.sendOk <;>
    cases htemp : env.snap.temp_c <;>
      simp [run_iteration, read_can_message, send_can_message, log_can_message,
        get_raspi5_status_snapshot, bodyRaises, hlog, hsend, htemp]

theorem stepLoop_phase_noRaise (env : Env) (stream : ℕ → Option CANMsg) (s : LoopState)
    (b : Bool) (hlog : env.logOk = true) (htemp : env.snap.temp_c.isNone = false) :
    (stepLoop env stream s b).phase = phaseStepNoRaise s.phase b := by
  cases s with
  | mk ph rc => cases ph <;> cases b <;> simp [stepLoop, phaseStepNoRaise, hlog, htemp]

theorem loopTrace_phase_noRaise (env : Env) (stream : ℕ → Option CANMsg) (t0 : ℕ)
    (hlog : env.logOk = true) (htemp : env.snap.temp_c.isNone = false) :
    ∀ i, (loopTrace env stream t0 i).phase = noRaiseTrace t0 i := by
  intro i
  induction i with
  | zero => rfl
  | succ k ih =>
    have h1 : loopTrace env stream t0 (k + 1)
        = stepLoop env stream (loopTrace env stream t0 k) (decide (k < t0)) := rfl
    rw [h1, stepLoop_phase_noRaise env stream _ _ hlog htemp, ih]
    rfl

theorem noRaiseTrace_active (t0 : ℕ) :
    ∀ i, i ≤ t0 → phaseActive (noRaiseTrace t0 i) = true := by
  intro i
  induction i with
  | zero => intro _; rfl
  | succ k ih =>
    intro hk
    have hklt : k < t0 := hk
    have hk' : phaseActive (noRaiseTrace t0 k) = true := ih (Nat.le_of_lt hklt)
    have : noRaiseTrace t0 (k + 1) = phaseStepNoRaise (noRaiseTrace t0 k) true := by
      simp [noRaiseTrace, hklt]
    rw [this]
    cases hp : noRaiseTrace t0 k <;> rw [hp] at hk' <;> first
      | rfl
      | exact absurd hk' (by simp [phaseActive])

theorem noRaiseTrace_add (t0 i : ℕ) (h : t0 ≤ i) :
    ∀ k, noRaiseTrace t0 (i + k) = drain^[k] (noRaiseTrace t0 i) := by
  intro k
  induction k with
  | zero => rfl
  | succ m ih =>
    have hflag : ¬ (i + m < t0) := by omega
    calc noRaiseTrace t0 (i + (m + 1))
        = phaseStepNoRaise (noRaiseTrace t0 (i + m)) (decide (i + m < t0)) := rfl
      _ = drain (noRaiseTrace t0 (i + m)) := by simp [hflag, drain]
      _ = drain (drain^[m] (noRaiseTrace t0 i)) := by rw [ih]
      _ = drain^[m + 1] (noRaiseTrace t0 i) := (Function.iterate_succ_apply' drain m _).symm

theorem drain_iterate_stopped : ∀ m, drain^[m] Phase.stopped = .stopped := by
  intro m
  induction m with
  | zero => rfl
  | succ k ih => rw [Function.iterate_succ_apply, show drain .stopped = .stopped from rfl, ih]

theorem drain_iterate_shutdown (m : ℕ) : drain^[m + 1] Phase.doShutdown = .stopped := by
  rw [Function.iterate_succ_apply, show drain .doShutdown = .stopped from rfl,
    drain_iterate_stopped]

theorem drain_ne_doRecv (p : Phase) : drain p ≠ .doRecv := by
  cases p <;> simp [drain, phaseStepNoRaise]

theorem noRaiseTrace_shutdown_ge (t0 i : ℕ) (h : noRaiseTrace t0 i = .doShutdown) : t0 < i := by
  by_contra hc
  have := noRaiseTrace_active t0 i (by omega)
  rw [h] at this
  exact absurd this (by simp [phaseActive])

theorem noRaiseTrace_after_shutdown (t0 i j : ℕ) (hi : noRaiseTrace t0 i = .doShutdown)
    (hij : i < j) : noRaiseTrace t0 j = .stopped := by
  have hti : t0 ≤ i := Nat.le_of_lt (noRaiseTrace_shutdown_ge t0 i hi)
  have hj : j = i + ((j - i - 1) + 1) := by omega
  rw [hj, noRaiseTrace_add t0 i hti, hi, drain_iterate_shutdown]

theorem drain_six_of_active (p : Phase) (h : p ≠ .exited) : drain^[6] p = .stopped := by
  cases p <;> first
    | rfl
    | exact absurd rfl h

theorem noRaiseTrace_shutdown_spec (t0 : ℕ) :
    noRaiseTrace t0 (t0 + 6) = Phase.stopped
  ∧ (∃ i, noRaiseTrace t0 i = Phase.doShutdown)
  ∧ (∀ i j, noRaiseTrace t0 i = Phase.doShutdown → noRaiseTrace t0 j = Phase.doShutdown → i = j)
  ∧ (∀ i j, noRaiseTrace t0 i = Phase.doShutdown → i < j →
       noRaiseTrace t0 j ≠ Phase.doRecv ∧ noRaiseTrace t0 j ≠ Phase.doSend)
  ∧ (∀ i j, t0 ≤ i → t0 ≤ j →
       noRaiseTrace t0 i = Phase.doRecv → noRaiseTrace t0 j = Phase.doRecv → i = j) := by
  have hact : phaseActive (noRaiseTrace t0 t0) = true :=
    noRaiseTrace_active t0 t0 (Nat.le_refl t0)
  have hstop : noRaiseTrace t0 (t0 + 6) = Phase.stopped := by
    rw [noRaiseTrace_add t0 t0 (Nat.le_refl t0) 6]
    refine drain_six_of_active _ fun he => ?_
    rw [he] at hact
    exact absurd hact (by simp [phaseActive])
  have hrecv0 : ∀ i, t0 ≤ i → noRaiseTrace t0 i = Phase.doRecv → i = t0 := by
    intro i hti hrec
    by_contra hne
    have hk : i = t0 + ((i - t0 - 1) + 1) := by omega
    rw [hk, noRaiseTrace_add t0 t0 (Nat.le_refl t0), Function.iterate_succ_apply'] at hrec
    exact drain_ne_doRecv _ hrec
  refine ⟨hstop, ?_, ?_, ?_, ?_⟩
  · -- existence of the shutdown step
    have hbase : ∀ k, drain^[k] (noRaiseTrace t0 t0) = .doShutdown →
        noRaiseTrace t0 (t0 + k) = .doShutdown := by
      intro k hk
      rw [noRaiseTrace_add t0 t0 (Nat.le_refl t0) k, hk]
    cases hp : noRaiseTrace t0 t0 <;> rw [hp] at hact
    case check => exact ⟨t0 + 1, hbase 1 (by rw [hp]; rfl)⟩
    case doRecv => exact ⟨t0 + 5, hbase 5 (by rw [hp]; rfl)⟩
    case doEmit => exact ⟨t0 + 4, hbase 4 (by rw [hp]; rfl)⟩
    case doSample => exact ⟨t0 + 3, hbase 3 (by rw [hp]; rfl)⟩
    case doSend => exact ⟨t0 + 2, hbase 2 (by rw [hp]; rfl)⟩
    case doShutdown => exact absurd hact (by simp [phaseActive])
    case stopped => exact absurd hact (by simp [phaseActive])
    case exited => exact absurd hact (by simp [phaseActive])
  · -- uniqueness of the shutdown step
    intro i j hi hj
    by_contra hne
    rcases Nat.lt_or_ge i j with hij | hij
    · have := noRaiseTrace_after_shutdown t0 i j hi hij
      rw [hj] at this
      cases this
    · have hji : j < i := by omega
      have := noRaiseTrace_after_shutdown t0 j i hj hji
      rw [hi] at this
      cases this
  · -- nothing received or sent after the shutdown
    intro i j hi hij
    have := noRaiseTrace_after_shutdown t0 i j hi hij
    rw [this]
    exact ⟨by simp, by simp⟩
  · -- at most one receive once stop is requested
    intro i j hti htj hi hj
    rw [hrecv0 i hti hi, hrecv0 j htj hj]

/-- Claim C1 (code bug): on a frame whose id selects a decoder but whose
payload is shorter than that decoder reads (here 7 bytes for 0x10C, 3 for
0x10D, 6 for 0x100), `handle_can_message` does not return a MalformedFrame
error: it raises struct.error respectively IndexError, an uncaught
exception, though indeed no TelemetryUpdate is produced. -/
theorem dispatch_short_frame_raises :
    handle_can_message ⟨0x10C, [0, 0, 0, 0, 0, 0, 0]⟩ = .error .structError
  ∧ handle_can_message ⟨0x10D, [0, 0, 0]⟩ = .error .structError
  ∧ handle_can_message ⟨0x100, [0, 0, 0, 0, 0, 0]⟩ = .error .indexError := by
  refine ⟨rfl, rfl, rfl⟩

/-- Claim C2 (code bug): the all-absent snapshot does not encode to eight
zero bytes; the packing raises TypeError at byte 0 because its guard tests
`data[0]` instead of `temp_output`. Every other absent metric does encode
as 0: with only the temperature present the encoding succeeds with zeros
in bytes 1-5. -/
theorem encode_absent_temp_raises :
    get_raspi5_status_snapshot ⟨none, none, none, none, none⟩ = .error .typeError
  ∧ get_raspi5_status_snapshot ⟨some 45, none, none, none, none⟩
      = .ok [45, 0, 0, 0, 0, 0, 0, 0] := by
  constructor
  · rfl
  · norm_num [get_raspi5_status_snapshot, pyInt, band255]
    decide

/-- Claim C3, counterexample: the pack-SOC byte is not clamped. The frame
with id 0x100 and byte 200 at offset 6 is dispatched to a PackSoc update
whose percent is 200, outside [0, 100]. -/
theorem packSoc_percent_unclamped_cex :
    handle_can_message ⟨0x100, [0, 0, 0, 0, 0, 0, 200, 0]⟩
      = .ok [.packSoc 200 8942] ∧ ¬ ((200 : ℚ) ≤ 100) := by
  constructor
  · norm_num [handle_can_message, MAX_SOC, SOC_DATA_INDEX]
  · norm_num

/-- Claim C3 as amended: every Speed update the dispatcher emits has its
percent clamped to [0, 100]; a PackSoc update's percent is the raw byte at
offset SOC_DATA_INDEX, unclamped, and lies in [0, 100] exactly when that
byte is at most 100. -/
theorem dispatch_percent_bounds (msg : CANMsg) (us : List TelemetryUpdate)
    (h : handle_can_message msg = .ok us) (u : TelemetryUpdate) (hu : u ∈ us) :
    (∀ p mph, u = .speed p mph → 0 ≤ p ∧ p ≤ 100) ∧
    (∀ p wh, u = .packSoc p wh →
       msg.data[SOC_DATA_INDEX]? = some p ∧ (p ≤ 100 → (0 : ℚ) ≤ (p : ℚ) ∧ (p : ℚ) ≤ 100)) := by
  unfold handle_can_message at h
  dsimp only at h
  split at h
  · -- id 0x10C
    split at h
    · cases h
    · split at h
      · cases h
      · injection h with h2
        subst h2
        simp only [List.mem_cons, List.not_mem_nil, or_false] at hu
        rcases hu with hu | hu <;> subst hu <;>
          exact ⟨fun p mph hEq => (by cases hEq), fun p wh hEq => (by cases hEq)⟩
  · split at h
    · -- id 0x10D
      split at h
      · cases h
      · injection h with h2
        subst h2
        simp only [List.mem_cons, List.not_mem_nil, or_false] at hu
        subst hu
        refine ⟨fun p mph hEq => ?_, fun p wh hEq => (by cases hEq)⟩
        cases hEq
        exact clamp_percent_mem _
    · split at h
      · -- id 0x100
        split at h
        next heq => cases h
        next soc heq =>
          injection h with h2
          subst h2
          simp only [List.mem_cons, List.not_mem_nil, or_false] at hu
          subst hu
          refine ⟨fun p mph hEq => (by cases hEq), fun p wh hEq => ?_⟩
          cases hEq
          refine ⟨heq, fun hp => ⟨by positivity, by exact_mod_cast hp⟩⟩
      · -- other ids: nothing emitted
        injection h with h2
        subst h2
        cases hu

/-- Claim C3 witness: the speed frame for 8.0 m/s yields a Speed update and
its percent, 50, is inside [0, 100]. -/
theorem dispatch_percent_bounds_witness :
    handle_can_message mSpeed = .ok [.speed 50 (448 / 25)]
  ∧ TelemetryUpdate.speed 50 (448 / 25) ∈ [TelemetryUpdate.speed 50 (448 / 25)]
  ∧ (0 : ℚ) ≤ 50 ∧ (50 : ℚ) ≤ 100 :=
  ⟨speed_frame_eval,
   List.mem_singleton.2 rfl,
   (dispatch_percent_bounds mSpeed [.speed 50 (448 / 25)] speed_frame_eval
      (.speed 50 (448 / 25)) (List.mem_singleton.2 rfl)).1 50 (448 / 25) rfl⟩

/-- Claim C4 (code bug): when the telemetry-log append fails, frame
processing crashes instead of continuing. With an unwritable log file, the
iteration on a received frame raises OSError, and a run dies at its first
log write whether the frame path (read_can_message) or the status path
(send_can_message) writes first. -/
theorem log_write_failure_crashes_loop :
    run_iteration envLogFail initState (some mSpeed) = .error .osError
  ∧ run_loop envLogFail initState [some mSpeed, none] = .error .osError
  ∧ run_loop envLogFail initState [none, some mSpeed] = .error .osError := by
  refine ⟨?_, ?_, ?_⟩ <;>
    simp [run_loop, run_iteration, read_can_message, send_can_message, log_can_message,
      envLogFail, encode_sampleSnap]

/-- Claim C5: the snapshot with temperature 45.0, voltage 5.1, RAM 30%,
CPU 12% and a 2 MiB log encodes to exactly [45, 51, 30, 12, 0, 2, 0, 0]:
byte 1 is voltage times 10 truncated, bytes 4-5 the big-endian 16-bit log
size in integer-divided megabytes. -/
theorem encode_sample_snapshot_bytes :
    get_raspi5_status_snapshot ⟨some 45, some (51 / 10), some 30, some 12, some (2 * 1024 * 1024)⟩
      = .ok [45, 51, 30, 12, 0, 2, 0, 0] := by
  norm_num [get_raspi5_status_snapshot, pyInt, band255]
  decide

/-- Claim C6: a frame with the speed id 0x10D and at least 4 payload bytes
is dispatched to one Speed update whose percent is
clamp(raw * 100 / MAX_SPEED, 0, 100) and whose mph is ms2mph(raw), raw
being the little-endian binary32 value of bytes 0..3. -/
theorem dispatch_speed_frame (data : List ℕ) (h : 4 ≤ data.length) :
    handle_can_message ⟨0x10D, data⟩ =
      .ok [.speed
            (clamp (decode_f32_le (data.getD 0 0) (data.getD 1 0) (data.getD 2 0) (data.getD 3 0)
                      * 100 / MAX_SPEED) 0 100)
            (ms2mph (decode_f32_le (data.getD 0 0) (data.getD 1 0) (data.getD 2 0) (data.getD 3 0)))] := by
  have h4 : ¬ data.length < 4 := by omega
  simp [handle_can_message, h4]

/-- Claim C6 witness: the payload encoding 8.0 m/s yields percent 50 (with
MAX_SPEED = 16) and mph 17.92 = 8.0 * 2.24. -/
theorem dispatch_speed_frame_witness :
    4 ≤ ([0, 0, 0, 65] : List ℕ).length
  ∧ handle_can_message ⟨0x10D, [0, 0, 0, 65]⟩ = .ok [.speed 50 (448 / 25)] :=
  ⟨by norm_num,
   (dispatch_speed_frame [0, 0, 0, 65] (by norm_num)).trans
     (by norm_num [decode_f32_le, clamp, ms2mph, MAX_SPEED])⟩

/-- Claim C7: a frame with the pack-SOC id 0x100 whose payload covers
offset SOC_DATA_INDEX is dispatched to one PackSoc update with percent the
byte at that offset and watt_hours = (percent / 100) * MAX_SOC. -/
theorem dispatch_pack_soc_frame (data : List ℕ) (b : ℕ)
    (h : data[SOC_DATA_INDEX]? = some b) :
    handle_can_message ⟨0x100, data⟩ = .ok [.packSoc b (((b : ℚ) / 100) * MAX_SOC)] := by
  simp [handle_can_message, h]

/-- Claim C7 witness: byte 75 at offset 6 yields percent 75 and
watt_hours 3353.25 (with MAX_SOC = 4471). -/
theorem dispatch_pack_soc_frame_witness :
    ([0, 0, 0, 0, 0, 0, 75, 0] : List ℕ)[SOC_DATA_INDEX]? = some 75
  ∧ handle_can_message ⟨0x100, [0, 0, 0, 0, 0, 0, 75, 0]⟩ = .ok [.packSoc 75 (13413 / 4)] :=
  ⟨by simp [SOC_DATA_INDEX],
   (dispatch_pack_soc_frame [0, 0, 0, 0, 0, 0, 75, 0] 75 (by simp [SOC_DATA_INDEX])).trans
     (by norm_num [MAX_SOC])⟩

/-- Claim C8, counterexample: with an unwritable log file and frames
arriving, stop requested at step 1 (while the receive is in flight), the
thread dies on the OSError of the log write (`exited` from step 2 on) and
`bus.shutdown()` is never reached: the transport handle is released zero
times, falsifying the claim's release of exactly once. -/
theorem shutdown_skipped_on_log_failure_cex :
    (loopTrace envLogFail streamSpeed 1 2).phase = Phase.exited
  ∧ ∀ j, (loopTrace envLogFail streamSpeed 1 j).phase ≠ Phase.doShutdown := by
  have habs : ∀ k, (loopTrace envLogFail streamSpeed 1 (k + 2)).phase = Phase.exited := by
    intro k
    induction k with
    | zero => rfl
    | succ m ih =>
      have h1 : loopTrace envLogFail streamSpeed 1 (m + 1 + 2)
          = stepLoop envLogFail streamSpeed (loopTrace envLogFail streamSpeed 1 (m + 2))
              (decide (m + 2 < 1)) := rfl
      rw [h1]
      rcases hs : loopTrace envLogFail streamSpeed 1 (m + 2) with ⟨ph, rc⟩
      rw [hs] at ih
      cases ph <;> simp_all [stepLoop]
  refine ⟨habs 0, ?_⟩
  intro j
  match j with
  | 0 => exact fun h => Phase.noConfusion h
  | 1 => exact fun h => Phase.noConfusion h
  | k + 2 => rw [habs k]; exact fun h => Phase.noConfusion h

/-- Claim C8 as amended: after a stop is requested at step t0, provided no
loop-body step raises (log writes succeed and the temperature metric is
present), the loop reaches `stopped` within one receive cycle (six
steps); the transport release `doShutdown` happens exactly once (at least
once and at most once); no receive and no send happens after the release;
and at most one receive completes at or after the stop request. Without
that proviso the release can be skipped entirely, as the counterexample
shows. -/
theorem ingest_loop_shutdown (env : Env) (stream : ℕ → Option CANMsg)
    (hlog : env.logOk = true) (htemp : env.snap.temp_c.isNone = false) : ∀ t0 : ℕ,
    (loopTrace env stream t0 (t0 + 6)).phase = Phase.stopped
  ∧ (∃ i, (loopTrace env stream t0 i).phase = Phase.doShutdown)
  ∧ (∀ i j, (loopTrace env stream t0 i).phase = Phase.doShutdown →
       (loopTrace env stream t0 j).phase = Phase.doShutdown → i = j)
  ∧ (∀ i j, (loopTrace env stream t0 i).phase = Phase.doShutdown → i < j →
       (loopTrace env stream t0 j).phase ≠ Phase.doRecv
         ∧ (loopTrace env stream t0 j).phase ≠ Phase.doSend)
  ∧ (∀ i j, t0 ≤ i → t0 ≤ j → (loopTrace env stream t0 i).phase = Phase.doRecv →
       (loopTrace env stream t0 j).phase = Phase.doRecv → i = j) := by
  intro t0
  have hb := loopTrace_phase_noRaise env stream t0 hlog htemp
  simp only [hb]
  exact noRaiseTrace_shutdown_spec t0

/-- Claim C8 witness: in the all-I/O-succeeding environment with frames
arriving, a stop requested at step 3 has the loop stopped by step 9. -/
theorem ingest_loop_shutdown_witness :
    envGood.logOk = true
  ∧ envGood.snap.temp_c.isNone = false
  ∧ (loopTrace envGood streamSpeed 3 9).phase = Phase.stopped :=
  ⟨rfl, rfl, (ingest_loop_shutdown envGood streamSpeed rfl rfl 3).1⟩

/-- Claim C9: while log writes succeed and the snapshot encodes (send
itself may fail, its error is caught), the loop attempts exactly one
status transmission per completed receive: after processing any input
list, the number of attempted sends equals the number of completed
receives. -/
theorem status_send_per_receive (env : Env) (d : List ℕ) (inputs : List (Option CANMsg))
    (hlog : env.logOk = true) (hsnap : get_raspi5_status_snapshot env.snap = .ok d) :
    sendAttemptsOf (run_loop env initState inputs) = some inputs.length := by
  obtain ⟨st2, h2, hc2⟩ := run_loop_counts env d hlog hsnap inputs initState
  rw [h2]
  simp [sendAttemptsOf, hc2, initState]

/-- Claim C9 witness: three completed receives (a frame, a null result,
a frame) produce exactly three status-transmission attempts. -/
theorem status_send_per_receive_witness :
    envGood.logOk = true
  ∧ get_raspi5_status_snapshot envGood.snap = .ok sampleBytes
  ∧ sendAttemptsOf (run_loop envGood initState [some mSpeed, none, some mSpeed]) = some 3 :=
  ⟨rfl, encode_sampleSnap,
   status_send_per_receive envGood sampleBytes [some mSpeed, none, some mSpeed] rfl
     encode_sampleSnap⟩

/-- Claim C10: a null receive result appends nothing to the telemetry log
yet is emitted unchanged to the sink, and the iteration still samples and
attempts the status send: with working log writes it completes with one
more emitted value (the null) and one more send attempt. -/
theorem null_receive_passthrough (env : Env) (st : IterState) (d : List ℕ)
    (hlog : env.logOk = true) (hsnap : get_raspi5_status_snapshot env.snap = .ok d) :
    read_can_message env st.logs none = .ok (st.logs, none)
  ∧ run_iteration env st none =
      .ok ⟨(if env.sendOk then st.logs ++ [⟨RASPI5_STATUS_CAN_ID, d⟩] else st.logs),
           st.emitted ++ [none],
           st.sendAttempts + 1,
           st.sent ++ (if env.sendOk then [⟨RASPI5_STATUS_CAN_ID, d⟩] else [])⟩ := by
  constructor
  · rfl
  · cases hsend : env.sendOk <;>
      simp [run_iteration, read_can_message, send_can_message, log_can_message,
        hlog, hsend, hsnap]

/-- Claim C10 witness: from the fresh state, a null receive leaves the log
empty on the receive side, emits the null, and performs the one status
send. -/
theorem null_receive_passthrough_witness :
    envGood.logOk = true
  ∧ get_raspi5_status_snapshot envGood.snap = .ok sampleBytes
  ∧ read_can_message envGood initState.logs none = .ok (initState.logs, none)
  ∧ run_iteration envGood initState none =
      .ok ⟨[⟨RASPI5_STATUS_CAN_ID, sampleBytes⟩], [none], 1,
           [⟨RASPI5_STATUS_CAN_ID, sampleBytes⟩]⟩ :=
  ⟨rfl, encode_sampleSnap,
   (null_receive_passthrough envGood initState sampleBytes rfl encode_sampleSnap).1,
   (null_receive_passthrough envGood initState sampleBytes rfl encode_sampleSnap).2⟩

end Rusolar
